import Mathlib

/-!
# DoonTaggle browser client (`src/js/app.js`)

A shallow embedding of the click handlers of the `App` object and of
`App.getLocation`, followed by the properties established about them.

Conventions of the embedding

* Numbers are elements of an arbitrary ordered field `α` with a floor
  function (exact arithmetic); every definition is executable at `α := ℚ`,
  and every finite JavaScript number is a rational.
* The namespace `Binary64` repeats `getLocation` and `handleReport` with every
  product and quotient rounded to the nearest binary64 number, which is what
  the JavaScript operators `*` and `/` compute.
* A text that the page obtains by `String(n)` of a number `n` is kept as the
  number `n` itself; a text that can also be missing is an `Option`.
* The answers of the wallet, of the ledger and of the device are inputs of the
  handlers (`ReportReplies`, `HistoryReplies`, `ScoreReplies`, `Position`).
  A handler maps the world before the click to the world after the whole
  chain of continuations has run.
-/

namespace App

/-- The two values of `style.visibility` the page uses. -/
inductive Visibility where
  | hidden
  | visible
deriving DecidableEq, Repr

/-- A table row appended by `handleGetReports`; the fields are the texts of its
cells in the order `row.appendChild` receives them
(`cell1, cell3, cell4, cell5, cell2`). -/
structure Row (α : Type) where
  /-- Text `String(repo[1][i])`, kept as the number (`none`: `undefined`). -/
  cell1 : Option Int
  /-- Text `Beh`. -/
  cell3 : String
  /-- Text `String(repo[5][i]/1e5) + ", " + String(repo[6][i]/1e5)`, kept as the
  two numbers (`none`: the quotient of `undefined`, `NaN`). -/
  cell4 : Option α × Option α
  /-- Text `String(repo[2][i]).substring(0,8)+"..."`. -/
  cell5 : String
  /-- Text `String(Date(repo[4][i]))`. -/
  cell2 : String
deriving DecidableEq, Repr

/-- The elements of the document that the handlers read or write. -/
structure Dom (α : Type) where
  /-- Value of the input `tagstate`. -/
  tagstate : String
  /-- Value of the input `plateno`. -/
  plateno : String
  /-- Number `Number(document.getElementById('behavior').value)`. -/
  behavior : Int
  /-- Text of `#latitude` (`none`: the empty text). -/
  latitude : Option α
  /-- Text of `#longitude` (`none`: the empty text). -/
  longitude : Option α
  /-- Markup of `#record`. -/
  record : String
  /-- Visibility of `reports-table`. -/
  reportsTable : Visibility
  /-- Visibility of `reports-title`. -/
  reportsTitle : Visibility
  /-- Children of the table body `reports`. -/
  reports : List (Row α)
  /-- Visibility of `score`. -/
  score : Visibility
  /-- Background colour of `score`. -/
  scoreBackground : String
  /-- Markup of `#score`: `some ds` is `"Driver Score:  " + String(ds)`,
  `none` the markup the page was loaded with. -/
  scoreHtml : Option α
deriving DecidableEq, Repr

/-- An argument of `console.log`. -/
inductive LogEntry (α : Type) where
  /-- A wallet error object or the `message` of a caught error. -/
  | message (text : String)
  /-- Text `"Determined Coords: " + String(latitude) + "," + String(longitude)`. -/
  | determinedCoords (latitude longitude : α)
  /-- Text `"Num Reports:" + String(numReports)`. -/
  | numReports (n : Nat)
  /-- Text `"Driver Score:" + String(ds)`. -/
  | driverScore (ds : α)
  /-- Text `"Latitude: " + latitude + ", Longitude: " + longitude`. -/
  | position (latitude longitude : α)
  /-- Text `"Geolocation is not supported or enabled."`. -/
  | unsupported
deriving DecidableEq, Repr

/-- A request that leaves the page. -/
inductive Call (α : Type) where
  /-- Wallet: `web3.eth.getAccounts`. -/
  | getAccounts
  /-- Ledger: `App.contracts.DriveAudit.deployed()`. -/
  | deployed
  /-- Ledger: `daInstance.fileReport(tagID, plateno, state, behavior, latitude, longitude)`. -/
  | fileReport (tagID plateno state : String) (behavior : Int) (latitude longitude : α)
  /-- Ledger: `daInstance.getRecentDriverReports.call(tagID)`. -/
  | getRecentDriverReports (tagID : String)
  /-- Ledger: `daInstance.getDriverScore.call(tagID)`. -/
  | getDriverScore (tagID : String)
deriving DecidableEq, Repr

/-- The document, the console and the requests issued so far. -/
structure World (α : Type) where
  dom : Dom α
  console : List (LogEntry α)
  calls : List (Call α)
deriving DecidableEq, Repr

/-- How a promise settles. -/
inductive Settled (β : Type) where
  | fulfilled (value : β)
  | rejected (message : String)
deriving DecidableEq, Repr

/-- What the wallet and the ledger answer during `handleReport`. -/
structure ReportReplies where
  /-- First argument of the `getAccounts` callback (`none`: `null`; `some text`:
  an error object whose description is `text`). -/
  error : Option String
  /-- Second argument of the `getAccounts` callback (`none`: `undefined`). -/
  accounts : Option (List String)
  /-- Whether `App.contracts.DriveAudit` has been set by `initContract`. -/
  artifact : Bool
  /-- Promise of `deployed()`. -/
  deployed : Settled Unit
  /-- Promise of `fileReport(...)`; the value is `result.tx`. -/
  fileReport : Settled String
deriving DecidableEq, Repr

/-- The tuple `repo` returned by `getRecentDriverReports`. -/
structure Reports where
  /-- Component `repo[0]`. -/
  count : Nat
  /-- Component `repo[1]`. -/
  validFlags : List Int
  /-- Component `repo[2]`. -/
  reporters : List String
  /-- Component `repo[3]`. -/
  behaviors : List Int
  /-- Component `repo[4]`. -/
  timestamps : List Int
  /-- Component `repo[5]`. -/
  lats : List Int
  /-- Component `repo[6]`. -/
  lngs : List Int
deriving DecidableEq, Repr

/-- What the ledger and the clock answer during `handleGetReports`. -/
structure HistoryReplies where
  /-- Whether `App.contracts.DriveAudit` has been set by `initContract`. -/
  artifact : Bool
  /-- Promise of `deployed()`. -/
  deployed : Settled Unit
  /-- Promise of `getRecentDriverReports.call(...)`. -/
  getRecentDriverReports : Settled Reports
  /-- Text returned by `Date(...)` called as a function: the current time. -/
  now : String
deriving DecidableEq, Repr

/-- What the ledger answers during `handleDriverScore`. -/
structure ScoreReplies (α : Type) where
  /-- Whether `App.contracts.DriveAudit` has been set by `initContract`. -/
  artifact : Bool
  /-- Promise of `deployed()`. -/
  deployed : Settled Unit
  /-- Promise of `getDriverScore.call(...)`. -/
  getDriverScore : Settled α
deriving DecidableEq, Repr

/-- What the device answers to `getLocation`. -/
inductive Position (α : Type) where
  /-- Object `navigator.geolocation` is missing. -/
  | unsupported
  /-- The success callback is never invoked. -/
  | silent
  /-- The success callback receives `position.coords`. -/
  | coords (latitude longitude : α)
deriving DecidableEq, Repr

section Handlers

variable {α : Type} [LinearOrderedField α] [FloorRing α]

/-- JavaScript `Math.round`: the nearest integer, a tie going up. -/
def Math.round (x : α) : Int := ⌊x + 1 / 2⌋

/-- Unary `+` applied to the text of a coordinate element: the empty text is
`0`, the text of a number is that number. -/
def toNumber : Option α → α
  | none => 0
  | some v => v

/-- Append an entry to the console. -/
def World.log (w : World α) (e : LogEntry α) : World α :=
  { w with console := w.console ++ [e] }

/-- Record a request. -/
def World.call (w : World α) (c : Call α) : World α :=
  { w with calls := w.calls ++ [c] }

/-- `App.getLocation`. -/
def getLocation (p : Position α) (w : World α) : World α :=
  match p with
  | .unsupported => w.log .unsupported
  | .silent => w
  | .coords latitude longitude =>
    let w := w.log (.position latitude longitude)
    { w with dom := { w.dom with
        latitude := some ((Math.round (latitude * 100000) : α) / 100000)
        longitude := some ((Math.round (longitude * 100000) : α) / 100000) } }

/-- `App.handleReport`. -/
def handleReport (r : ReportReplies) (w : World α) : World α :=
  let w := { w with dom := { w.dom with score := .hidden } }
  let w := w.call .getAccounts
  let w := match r.error with
    | some error => w.log (.message error)
    | none => w
  match r.accounts with
  | none => w
  | some accounts =>
    let account := accounts[0]?
    if r.artifact = false then w else
    let w := w.call .deployed
    match r.deployed with
    | .rejected message => w.log (.message message)
    | .fulfilled _ =>
      let plateno := w.dom.plateno
      let state := w.dom.tagstate
      let tagID := state ++ plateno
      let latitude := toNumber w.dom.latitude * 100000
      let longitude := toNumber w.dom.longitude * 100000
      let w := w.log (.determinedCoords latitude longitude)
      let w := w.call (.fileReport tagID plateno state w.dom.behavior latitude longitude)
      match r.fileReport with
      | .rejected message => w.log (.message message)
      | .fulfilled tx =>
        let restext := "Tag <b>" ++ w.dom.tagstate ++ "--" ++ w.dom.plateno
          ++ "</b> was filed by user " ++ account.getD "undefined"
          ++ "<br><b>TransactionID=</b>" ++ tx
        { w with dom := { w.dom with record := restext } }

/-- The `switch` of `handleGetReports` on `Number(repo[3][i])`
(`none`: `undefined`, whose number is `NaN`). -/
def Beh : Option Int → String
  | some 1 => "Aggressive"
  | some 2 => "Speeding"
  | some 3 => "Proximity"
  | some 4 => "Erratic"
  | some 5 => "Hazard"
  | _ => "Unknown"

/-- The row that the body of the `for` loop of `handleGetReports` builds at
index `i`. -/
def mkRow (repo : Reports) (now : String) (i : Nat) : Row α :=
  { cell1 := repo.validFlags[i]?
    cell2 := now
    cell3 := Beh repo.behaviors[i]?
    cell4 := ((repo.lats[i]?).map (fun v => (v : α) / 100000),
              (repo.lngs[i]?).map (fun v => (v : α) / 100000))
    cell5 := ((repo.reporters[i]?).getD "undefined").take 8 ++ "..." }

/-- The test `repo[1][i] > 0` (`undefined > 0` is false). -/
def flagSet (repo : Reports) (i : Nat) : Bool :=
  match repo.validFlags[i]? with
  | some f => decide (f > 0)
  | none => false

/-- The loop `while (fc) { tblBody.removeChild(fc); fc = tblBody.firstChild; }`. -/
def removeChildren : List (Row α) → List (Row α)
  | [] => []
  | _ :: rest => removeChildren rest

/-- The loop `for (var i = 0; i < numReports; i++)` from index `i` on. -/
def appendRows (repo : Reports) (now : String) (i : Nat) (tblBody : List (Row α)) :
    List (Row α) :=
  if i < repo.count then
    if flagSet repo i then
      appendRows repo now (i + 1) (tblBody ++ [mkRow repo now i])
    else
      appendRows repo now (i + 1) tblBody
  else
    tblBody
termination_by repo.count - i

/-- `App.handleGetReports`. -/
def handleGetReports (r : HistoryReplies) (w : World α) : World α :=
  if r.artifact = false then w else
  let w := w.call .deployed
  match r.deployed with
  | .rejected message => w.log (.message message)
  | .fulfilled _ =>
    let w := w.call (.getRecentDriverReports (w.dom.tagstate ++ w.dom.plateno))
    match r.getRecentDriverReports with
    | .rejected message => w.log (.message message)
    | .fulfilled repo =>
      let numReports := repo.count
      let w := w.log (.numReports numReports)
      let w := { w with dom := { w.dom with
        reportsTable := .visible, reportsTitle := .visible } }
      let tblBody := removeChildren w.dom.reports
      { w with dom := { w.dom with reports := appendRows repo r.now 0 tblBody } }

/-- `App.handleDriverScore`. -/
def handleDriverScore (r : ScoreReplies α) (w : World α) : World α :=
  if r.artifact = false then w else
  let w := w.call .deployed
  match r.deployed with
  | .rejected message => w.log (.message message)
  | .fulfilled _ =>
    let w := w.call (.getDriverScore (w.dom.tagstate ++ w.dom.plateno))
    match r.getDriverScore with
    | .rejected message => w.log (.message message)
    | .fulfilled ds =>
      let w := w.log (.driverScore ds)
      let w :=
        if ds < 20 then
          { w with dom := { w.dom with scoreBackground := "green" } }
        else if ds ≥ 20 ∧ ds < 50 then
          { w with dom := { w.dom with scoreBackground := "orange" } }
        else if ds ≥ 50 then
          { w with dom := { w.dom with scoreBackground := "red" } }
        else w
      { w with dom := { w.dom with score := .visible, scoreHtml := some ds } }

end Handlers

/-! ## The coordinate path in binary64 -/

namespace Binary64

/-- The binary64 number nearest to `q`, a tie going to the even significand:
the significand has 53 bits, the exponent of the leading bit is at least
`-1022` (below that the spacing stays `2 ^ (-1074)`). Magnitudes of `2 ^ 1024`
and more, which JavaScript turns into `Infinity`, do not occur here. -/
def nearest (q : ℚ) : ℚ :=
  let e : Int := max (Int.log 2 |q|) (-1022) - 52
  let m : ℚ := q / 2 ^ e
  let f : Int := ⌊m⌋
  let n : Int :=
    if m - f < 1 / 2 then f
    else if 1 / 2 < m - f then f + 1
    else if f % 2 = 0 then f else f + 1
  n * 2 ^ e

/-- `App.getLocation` on binary64 numbers: `Math.round(v*1e5)/1e5` rounds the
product, takes the nearest integer and rounds the quotient. -/
def getLocation (p : Position ℚ) (w : World ℚ) : World ℚ :=
  match p with
  | .unsupported => w.log .unsupported
  | .silent => w
  | .coords latitude longitude =>
    let w := w.log (.position latitude longitude)
    { w with dom := { w.dom with
        latitude := some (nearest ((Math.round (nearest (latitude * 100000)) : ℚ) / 100000))
        longitude := some (nearest ((Math.round (nearest (longitude * 100000)) : ℚ) / 100000)) } }

/-- `App.handleReport` on binary64 numbers: `(+text)*1e5` rounds the product and
nothing rounds it to an integer afterwards. -/
def handleReport (r : ReportReplies) (w : World ℚ) : World ℚ :=
  let w := { w with dom := { w.dom with score := .hidden } }
  let w := w.call .getAccounts
  let w := match r.error with
    | some error => w.log (.message error)
    | none => w
  match r.accounts with
  | none => w
  | some accounts =>
    let account := accounts[0]?
    if r.artifact = false then w else
    let w := w.call .deployed
    match r.deployed with
    | .rejected message => w.log (.message message)
    | .fulfilled _ =>
      let plateno := w.dom.plateno
      let state := w.dom.tagstate
      let tagID := state ++ plateno
      let latitude := nearest (toNumber w.dom.latitude * 100000)
      let longitude := nearest (toNumber w.dom.longitude * 100000)
      let w := w.log (.determinedCoords latitude longitude)
      let w := w.call (.fileReport tagID plateno state w.dom.behavior latitude longitude)
      match r.fileReport with
      | .rejected message => w.log (.message message)
      | .fulfilled tx =>
        let restext := "Tag <b>" ++ w.dom.tagstate ++ "--" ++ w.dom.plateno
          ++ "</b> was filed by user " ++ account.getD "undefined"
          ++ "<br><b>TransactionID=</b>" ++ tx
        { w with dom := { w.dom with record := restext } }

end Binary64

/-! ## Concrete inputs used to evaluate the handlers -/

/-- The binary64 number that JavaScript writes `1.005`. -/
def sampleLatitude : ℚ := 1131529406376837 / 1125899906842624

/-- The binary64 number that JavaScript writes `4.35`. -/
def sampleLongitude : ℚ := 2448832297382707 / 562949953421312

/-- The wallet answers; the ledger accepts `fileReport`. -/
def ledgerAccepts : ReportReplies :=
  { error := none
    accounts := some ["0xA11CE"]
    artifact := true
    deployed := .fulfilled ()
    fileReport := .fulfilled "0xabc" }

/-- A page on which a report was filed earlier and a score is on display. -/
def sampleWorld : World ℚ :=
  { dom :=
      { tagstate := "CA", plateno := "7ABC123", behavior := 2
        latitude := none, longitude := none
        record := "Tag <b>NV--1XYZ000</b> was filed by user 0xF00<br><b>TransactionID=</b>0x01"
        reportsTable := .hidden, reportsTitle := .hidden
        reports := [⟨some 7, "Hazard", (none, none), "0xdeadbe...", "yesterday"⟩]
        score := .visible, scoreBackground := "green", scoreHtml := some 3 }
    console := []
    calls := [] }

/-- A five-entry ledger answer with the valid flags `[1,0,1,1,0]`. -/
def sampleRepo : Reports :=
  { count := 5
    validFlags := [1, 0, 1, 1, 0]
    reporters := ["0x1111111111", "0x2222222222", "0x3333333333", "0x4444444444", "0x5555555555"]
    behaviors := [1, 2, 5, 9, 0]
    timestamps := [1530000000, 0, 1530000100, 1530000200, 0]
    lats := [3712346, 0, -3385678, 5150000, 0]
    lngs := [-12200000, 0, 15120000, -12000, 0] }

/-- A one-entry ledger answer whose valid flag is negative. -/
def negativeFlagRepo : Reports :=
  { count := 1
    validFlags := [-1]
    reporters := ["0x1111111111"]
    behaviors := [2]
    timestamps := [1530000000]
    lats := [3712346]
    lngs := [-12200000] }

/-- The ledger answers a history query with `repo`. -/
def historyOf (repo : Reports) : HistoryReplies :=
  { artifact := true, deployed := .fulfilled (), getRecentDriverReports := .fulfilled repo
    now := "Tue Jun 26 2018 10:00:00 GMT+0000 (UTC)" }

/-- The wallet reports an error and an account list; the ledger accepts. -/
def errorWithAccounts : ReportReplies :=
  { error := some "User denied account authorization"
    accounts := some ["0xA11CE"]
    artifact := true
    deployed := .fulfilled ()
    fileReport := .fulfilled "0xabc" }

/-- The wallet answers; the ledger rejects `fileReport`. -/
def ledgerRejects : ReportReplies :=
  { error := none
    accounts := some ["0xA11CE"]
    artifact := true
    deployed := .fulfilled ()
    fileReport := .rejected "VM Exception while processing transaction: revert" }

/-! ## Auxiliary lemmas -/

theorem removeChildren_nil {α : Type} (rows : List (Row α)) : removeChildren rows = [] := by
  induction rows with
  | nil => rfl
  | cons _ rest ih => simpa [removeChildren] using ih

theorem flagSet_eq (repo : Reports) (i : Nat) :
    flagSet repo i = decide (0 < (repo.validFlags[i]?).getD 0) := by
  unfold flagSet
  cases repo.validFlags[i]? <;> simp

theorem appendRows_eq {α : Type} [LinearOrderedField α] (repo : Reports) (now : String) :
    ∀ (n i : Nat) (tblBody : List (Row α)), repo.count - i = n →
      appendRows repo now i tblBody
        = tblBody ++ ((List.range' i n).filter (flagSet repo)).map (mkRow repo now) := by
  intro n
  induction n with
  | zero =>
    intro i tblBody h
    rw [appendRows]
    have : ¬ i < repo.count := by omega
    simp [this]
  | succ n ih =>
    intro i tblBody h
    rw [appendRows]
    have hlt : i < repo.count := by omega
    have hn : repo.count - (i + 1) = n := by omega
    by_cases hf : flagSet repo i = true
    · simp [hlt, hf, ih (i + 1) _ hn, List.range'_succ]
    · simp [hlt, hf, ih (i + 1) _ hn, List.range'_succ]

theorem handleGetReports_reports {α : Type} [LinearOrderedField α] (repo : Reports) (now : String) (w : World α) :
    (handleGetReports ⟨true, .fulfilled (), .fulfilled repo, now⟩ w).dom.reports
      = ((List.range repo.count).filter (flagSet repo)).map (mkRow repo now) := by
  simp [handleGetReports, World.call, World.log, removeChildren_nil,
    appendRows_eq repo now repo.count 0 [] rfl, List.range_eq_range']

theorem handleGetReports_reports_positive {α : Type} [LinearOrderedField α]
    (repo : Reports) (now : String) (w : World α) :
    (handleGetReports ⟨true, .fulfilled (), .fulfilled repo, now⟩ w).dom.reports
      = ((List.range repo.count).filter
          (fun i => decide (0 < (repo.validFlags[i]?).getD 0))).map (mkRow repo now) := by
  rw [handleGetReports_reports]
  congr 2
  funext i
  exact flagSet_eq repo i

theorem round_div_sub_le {α : Type} [LinearOrderedField α] [FloorRing α] (x : α) :
    |(Math.round (x * 100000) : α) / 100000 - x| ≤ 1 / 200000 := by
  unfold Math.round
  have h1 := Int.floor_le (x * 100000 + 1 / 2)
  have h2 := Int.lt_floor_add_one (x * 100000 + 1 / 2)
  rw [abs_le]
  constructor
  · rw [le_sub_iff_add_le, le_div_iff₀ (by norm_num)]
    linarith
  · rw [sub_le_iff_le_add, div_le_iff₀ (by norm_num)]
    linarith

theorem Binary64.nearest_eq (q : ℚ) (k n : Int) (hk : -1022 ≤ k)
    (hlo : (2 : ℚ) ^ k ≤ |q|) (hhi : |q| < (2 : ℚ) ^ (k + 1))
    (h1 : (n : ℚ) - 1 / 2 < q / 2 ^ (k - 52)) (h2 : q / 2 ^ (k - 52) < n + 1 / 2) :
    Binary64.nearest q = n * 2 ^ (k - 52) := by
  have hpos : 0 < |q| := lt_of_lt_of_le (by positivity) hlo
  have hlog : Int.log 2 |q| = k := by
    apply le_antisymm
    · have hlt : Int.log 2 |q| < k + 1 :=
        (Int.lt_zpow_iff_log_lt (by norm_num) hpos).mp (by exact_mod_cast hhi)
      omega
    · exact (Int.zpow_le_iff_le_log (by norm_num) hpos).mp (by exact_mod_cast hlo)
  unfold Binary64.nearest
  simp only [hlog, max_eq_left hk]
  have hf1 := Int.floor_le (q / 2 ^ (k - 52))
  have hf2 := Int.lt_floor_add_one (q / 2 ^ (k - 52))
  generalize ⌊q / 2 ^ (k - 52)⌋ = f at hf1 hf2
  generalize q / 2 ^ (k - 52) = m at h1 h2 hf1 hf2
  have hle : f ≤ n := by
    have hq : (f : ℚ) < n + 1 := by linarith
    have hz : f < n + 1 := by exact_mod_cast hq
    omega
  have hge : n ≤ f + 1 := by
    have hq : (n : ℚ) < f + 2 := by linarith
    have hz : n < f + 2 := by exact_mod_cast hq
    omega
  have hcase : f = n ∨ f = n - 1 := by omega
  rcases hcase with h | h
  · subst h
    have hlt : m - f < 1 / 2 := by linarith
    rw [if_pos hlt]
  · have hfn : (f : ℚ) = n - 1 := by
      rw [h]
      push_cast
      ring
    have hn1 : ¬ m - f < 1 / 2 := by
      rw [hfn]
      intro hh
      linarith
    have hn2 : 1 / 2 < m - f := by
      rw [hfn]
      linarith
    rw [if_neg hn1, if_pos hn2]
    congr 1
    rw [h]
    push_cast
    ring

theorem nearest_sampleLatitude_mul :
    Binary64.nearest (sampleLatitude * 100000) = 6906307411967999 / 68719476736 := by
  have h := Binary64.nearest_eq (sampleLatitude * 100000) 16 6906307411967999 (by norm_num)
    (by rw [abs_of_pos (by norm_num [sampleLatitude])]; norm_num [sampleLatitude])
    (by rw [abs_of_pos (by norm_num [sampleLatitude])]; norm_num [sampleLatitude])
    (by norm_num [sampleLatitude]) (by norm_num [sampleLatitude])
  rw [h]
  norm_num

theorem nearest_sampleLongitude_mul :
    Binary64.nearest (sampleLongitude * 100000) = 7473243095039999 / 17179869184 := by
  have h := Binary64.nearest_eq (sampleLongitude * 100000) 18 7473243095039999 (by norm_num)
    (by rw [abs_of_pos (by norm_num [sampleLongitude])]; norm_num [sampleLongitude])
    (by rw [abs_of_pos (by norm_num [sampleLongitude])]; norm_num [sampleLongitude])
    (by norm_num [sampleLongitude]) (by norm_num [sampleLongitude])
  rw [h]
  norm_num

theorem round_nearest_sampleLatitude :
    Math.round (6906307411967999 / 68719476736 : ℚ) = 100500 := by
  unfold Math.round
  rw [Int.floor_eq_iff]
  constructor <;> norm_num

theorem round_nearest_sampleLongitude :
    Math.round (7473243095039999 / 17179869184 : ℚ) = 435000 := by
  unfold Math.round
  rw [Int.floor_eq_iff]
  constructor <;> norm_num

theorem nearest_sampleLatitude_div :
    Binary64.nearest (((100500 : Int) : ℚ) / 100000) = sampleLatitude := by
  have h := Binary64.nearest_eq (((100500 : Int) : ℚ) / 100000) 0 4526117625507348 (by norm_num)
    (by rw [abs_of_pos (by norm_num)]; norm_num)
    (by rw [abs_of_pos (by norm_num)]; norm_num)
    (by norm_num) (by norm_num)
  rw [h]
  norm_num [sampleLatitude]

theorem nearest_sampleLongitude_div :
    Binary64.nearest (((435000 : Int) : ℚ) / 100000) = sampleLongitude := by
  have h := Binary64.nearest_eq (((435000 : Int) : ℚ) / 100000) 2 4897664594765414 (by norm_num)
    (by rw [abs_of_pos (by norm_num)]; norm_num)
    (by rw [abs_of_pos (by norm_num)]; norm_num)
    (by norm_num) (by norm_num)
  rw [h]
  norm_num [sampleLongitude]

theorem Binary64.getLocation_sample (w : World ℚ) :
    (Binary64.getLocation (.coords sampleLatitude sampleLongitude) w).dom
      = { w.dom with latitude := some sampleLatitude, longitude := some sampleLongitude } := by
  simp only [Binary64.getLocation, World.log, nearest_sampleLatitude_mul,
    nearest_sampleLongitude_mul, round_nearest_sampleLatitude, round_nearest_sampleLongitude,
    nearest_sampleLatitude_div, nearest_sampleLongitude_div]

theorem Binary64.getLocation_calls (p : Position ℚ) (w : World ℚ) :
    (Binary64.getLocation p w).calls = w.calls := by
  cases p <;> rfl

/-! ## Properties of the handlers -/

/-- C1, as the code has it: after a successful `handleGetReports` the table
body holds, whatever it held before, exactly one row per index `i < count`
whose valid flag is greater than zero, in ascending index order; a flag that is
zero, negative or missing gives no row. For the flags `[1,0,1,1,0]` these are
the rows of the indices 0, 2 and 3. -/
theorem handleGetReports_rows_positive_flags {α : Type} [LinearOrderedField α] (repo : Reports) (now : String) (w : World α) :
    (handleGetReports ⟨true, .fulfilled (), .fulfilled repo, now⟩ w).dom.reports
        = ((List.range repo.count).filter
            (fun i => decide (0 < (repo.validFlags[i]?).getD 0))).map (mkRow repo now)
      ∧ ∀ reporters behaviors timestamps lats lngs,
          (handleGetReports ⟨true, .fulfilled (),
              .fulfilled ⟨5, [1, 0, 1, 1, 0], reporters, behaviors, timestamps, lats, lngs⟩,
              now⟩ w).dom.reports
            = [mkRow ⟨5, [1, 0, 1, 1, 0], reporters, behaviors, timestamps, lats, lngs⟩ now 0,
               mkRow ⟨5, [1, 0, 1, 1, 0], reporters, behaviors, timestamps, lats, lngs⟩ now 2,
               mkRow ⟨5, [1, 0, 1, 1, 0], reporters, behaviors, timestamps, lats, lngs⟩ now 3] := by
  constructor
  · exact handleGetReports_reports_positive repo now w
  · intro reporters behaviors timestamps lats lngs
    rw [handleGetReports_reports]
    simp [List.range_succ, List.filter, flagSet]

/-- C1, counterexample: the only entry of `negativeFlagRepo` has the nonzero
valid flag `-1`, so the claim asks for one row, and `handleGetReports` leaves
the table body empty. -/
theorem handleGetReports_negative_flag_no_row :
    (handleGetReports (historyOf negativeFlagRepo) sampleWorld).dom.reports = []
      ∧ ((List.range negativeFlagRepo.count).filter
            (fun i => decide ((negativeFlagRepo.validFlags[i]?).getD 0 ≠ 0))).map
          (mkRow negativeFlagRepo (historyOf negativeFlagRepo).now)
        = [(mkRow negativeFlagRepo (historyOf negativeFlagRepo).now 0 : Row ℚ)]
      ∧ (handleGetReports (historyOf negativeFlagRepo) sampleWorld).dom.reports
        ≠ ((List.range negativeFlagRepo.count).filter
            (fun i => decide ((negativeFlagRepo.validFlags[i]?).getD 0 ≠ 0))).map
          (mkRow negativeFlagRepo (historyOf negativeFlagRepo).now) := by
  have h : (handleGetReports (historyOf negativeFlagRepo) sampleWorld).dom.reports = [] := by
    unfold historyOf
    rw [handleGetReports_reports]
    simp [negativeFlagRepo, List.range_succ, List.filter, flagSet]
  refine ⟨h, ?_, ?_⟩
  · simp [negativeFlagRepo, List.range_succ, List.filter]
  · rw [h]
    simp [negativeFlagRepo, List.range_succ, List.filter]

/-- C2: for every score `ds` that `getDriverScore` returns, `handleDriverScore`
colours the indicator green exactly when `ds < 20`, orange exactly when
`20 ≤ ds < 50` and red exactly when `50 ≤ ds`, whatever colour it had before;
19.9 is green, 20 and 49.9 are orange, 50 and 1000 are red. -/
theorem handleDriverScore_band {α : Type} [LinearOrderedField α] (ds : α) (w : World α) :
    ((handleDriverScore ⟨true, .fulfilled (), .fulfilled ds⟩ w).dom.scoreBackground = "green"
        ↔ ds < 20)
      ∧ ((handleDriverScore ⟨true, .fulfilled (), .fulfilled ds⟩ w).dom.scoreBackground = "orange"
        ↔ 20 ≤ ds ∧ ds < 50)
      ∧ ((handleDriverScore ⟨true, .fulfilled (), .fulfilled ds⟩ w).dom.scoreBackground = "red"
        ↔ 50 ≤ ds)
      ∧ (handleDriverScore ⟨true, .fulfilled (), .fulfilled (199 / 10 : α)⟩ w).dom.scoreBackground
        = "green"
      ∧ (handleDriverScore ⟨true, .fulfilled (), .fulfilled (20 : α)⟩ w).dom.scoreBackground
        = "orange"
      ∧ (handleDriverScore ⟨true, .fulfilled (), .fulfilled (499 / 10 : α)⟩ w).dom.scoreBackground
        = "orange"
      ∧ (handleDriverScore ⟨true, .fulfilled (), .fulfilled (50 : α)⟩ w).dom.scoreBackground
        = "red"
      ∧ (handleDriverScore ⟨true, .fulfilled (), .fulfilled (1000 : α)⟩ w).dom.scoreBackground
        = "red" := by
  have key : ∀ d : α,
      (handleDriverScore ⟨true, .fulfilled (), .fulfilled d⟩ w).dom.scoreBackground
        = if d < 20 then "green" else if d < 50 then "orange" else "red" := by
    intro d
    by_cases h1 : d < 20
    · simp [handleDriverScore, World.call, World.log, h1]
    · have h1le : 20 ≤ d := not_lt.mp h1
      by_cases h2 : d < 50
      · simp [handleDriverScore, World.call, World.log, h1, h1le, h2]
      · have h2le : 50 ≤ d := not_lt.mp h2
        simp [handleDriverScore, World.call, World.log, h1, h1le, h2, h2le]
  refine ⟨?_, ?_, ?_, ?_, ?_, ?_, ?_, ?_⟩
  · rw [key]
    by_cases h1 : ds < 20
    · simp [h1]
    · by_cases h2 : ds < 50 <;> simp [h1, h2]
  · rw [key]
    by_cases h1 : ds < 20
    · simp [h1, not_le.mpr h1]
    · by_cases h2 : ds < 50 <;> simp [h1, h2, not_lt.mp h1]
  · rw [key]
    by_cases h1 : ds < 20
    · have : ¬ 50 ≤ ds := by
        intro h
        linarith
      simp [h1, this]
    · by_cases h2 : ds < 50
      · simp [h1, h2, not_le.mpr h2]
      · simp [h1, h2, not_lt.mp h2]
  · rw [key]
    norm_num
  · rw [key]
    norm_num
  · rw [key]
    norm_num
  · rw [key]
    norm_num
  · rw [key]
    norm_num

/-- C3: when the behavior code at index `i` of the ledger answer is the integer
`c`, the label cell of the row built for `i` reads Aggressive for 1, Speeding
for 2, Proximity for 3, Erratic for 4, Hazard for 5 and Unknown for every other
integer, zero and the negative ones included. -/
theorem mkRow_behavior_label {α : Type} [LinearOrderedField α] (repo : Reports) (now : String)
    (i : Nat) (c : Int) (hc : repo.behaviors[i]? = some c) :
    (c = 1 → (mkRow repo now i : Row α).cell3 = "Aggressive")
      ∧ (c = 2 → (mkRow repo now i : Row α).cell3 = "Speeding")
      ∧ (c = 3 → (mkRow repo now i : Row α).cell3 = "Proximity")
      ∧ (c = 4 → (mkRow repo now i : Row α).cell3 = "Erratic")
      ∧ (c = 5 → (mkRow repo now i : Row α).cell3 = "Hazard")
      ∧ (c < 1 ∨ 5 < c → (mkRow repo now i : Row α).cell3 = "Unknown") := by
  have hrow : (mkRow repo now i : Row α).cell3 = Beh (some c) := by
    simp [mkRow, hc]
  rw [hrow]
  refine ⟨?_, ?_, ?_, ?_, ?_, ?_⟩
  · rintro rfl
    rfl
  · rintro rfl
    rfl
  · rintro rfl
    rfl
  · rintro rfl
    rfl
  · rintro rfl
    rfl
  · intro h
    unfold Beh
    split <;> first | rfl | (rename_i heq; simp at heq; omega)

/-- C3, at the sample answer: index 4 carries the code 0, and the label is
Unknown. -/
theorem mkRow_behavior_label_sample :
    sampleRepo.behaviors[4]? = some 0
      ∧ (mkRow sampleRepo "now" 4 : Row ℚ).cell3 = "Unknown" :=
  ⟨by decide,
   (mkRow_behavior_label sampleRepo "now" 4 0 (by decide)).2.2.2.2.2 (Or.inl (by decide))⟩

/-- C4: with `s` the value of the input `tagstate` and `p` the value of the input
`plateno`, the tag that `handleReport` passes to `fileReport`, the one
`handleGetReports` passes to `getRecentDriverReports` and the one
`handleDriverScore` passes to `getDriverScore` are all the string `s ++ p`. -/
theorem tag_is_state_then_plate {α : Type} [LinearOrderedField α] (w : World α)
    (error : Option String) (accounts : List String) (filed : Settled String)
    (history : Settled Reports) (now : String) (score : Settled α) :
    (handleReport ⟨error, some accounts, true, .fulfilled (), filed⟩ w).calls
        = w.calls ++ [.getAccounts, .deployed,
            .fileReport (w.dom.tagstate ++ w.dom.plateno) w.dom.plateno w.dom.tagstate
              w.dom.behavior (toNumber w.dom.latitude * 100000)
              (toNumber w.dom.longitude * 100000)]
      ∧ (handleGetReports ⟨true, .fulfilled (), history, now⟩ w).calls
        = w.calls ++ [.deployed, .getRecentDriverReports (w.dom.tagstate ++ w.dom.plateno)]
      ∧ (handleDriverScore ⟨true, .fulfilled (), score⟩ w).calls
        = w.calls ++ [.deployed, .getDriverScore (w.dom.tagstate ++ w.dom.plateno)] := by
  refine ⟨?_, ?_, ?_⟩
  · cases error <;> cases filed <;> simp [handleReport, World.call, World.log]
  · cases history <;> simp [handleGetReports, World.call, World.log]
  · cases score with
    | rejected message => simp [handleDriverScore, World.call, World.log]
    | fulfilled ds =>
      simp [handleDriverScore, World.call, World.log]
      split_ifs <;> rfl

/-- C5, the code at the position `(1.005, 4.35)`: `getLocation` stores 1.005 and
4.35, and the latitude and longitude that `handleReport` passes to `fileReport`
are the binary64 products 100499.99999999999 and 434999.99999999994, which are
not the integers `Math.round (x * 1e5) = 100500` and
`Math.round (y * 1e5) = 435000`. -/
theorem handleReport_binary64_sends_fractions :
    (Binary64.getLocation (.coords sampleLatitude sampleLongitude) sampleWorld).dom.latitude
        = some sampleLatitude
      ∧ (Binary64.getLocation (.coords sampleLatitude sampleLongitude) sampleWorld).dom.longitude
        = some sampleLongitude
      ∧ (Binary64.handleReport ledgerAccepts
          (Binary64.getLocation (.coords sampleLatitude sampleLongitude) sampleWorld)).calls
        = [.getAccounts, .deployed,
            .fileReport "CA7ABC123" "7ABC123" "CA" 2
              (6906307411967999 / 68719476736) (7473243095039999 / 17179869184)]
      ∧ Math.round (sampleLatitude * 100000) = 100500
      ∧ Math.round (sampleLongitude * 100000) = 435000
      ∧ (6906307411967999 / 68719476736 : ℚ) ≠ ((100500 : Int) : ℚ)
      ∧ (7473243095039999 / 17179869184 : ℚ) ≠ ((435000 : Int) : ℚ) := by
  refine ⟨?_, ?_, ?_, ?_, ?_, ?_, ?_⟩
  · rw [Binary64.getLocation_sample]
  · rw [Binary64.getLocation_sample]
  · simp only [Binary64.handleReport, ledgerAccepts, World.call, World.log,
      Binary64.getLocation_sample, Binary64.getLocation_calls, toNumber,
      nearest_sampleLatitude_mul, nearest_sampleLongitude_mul]
    simp [sampleWorld]
  · unfold Math.round
    rw [Int.floor_eq_iff]
    constructor <;> norm_num [sampleLatitude]
  · unfold Math.round
    rw [Int.floor_eq_iff]
    constructor <;> norm_num [sampleLongitude]
  · norm_num
  · norm_num

/-- C6: for a position `(x, y)` the latitude and longitude that `getLocation`
stores differ from `x` and `y` by at most `1e-5`, and so do the two numbers
that a history row displays for the fixed-point coordinates
`Math.round (x * 1e5)` and `Math.round (y * 1e5)`; in exact arithmetic this
holds for every `x` and `y`, those between -180 and 180 included. -/
theorem coordinate_round_trip_within_1e5 {α : Type} [LinearOrderedField α] [FloorRing α]
    (x y : α) (w : World α) (repo : Reports) (now : String) (i : Nat)
    (hlat : repo.lats[i]? = some (Math.round (x * 100000)))
    (hlng : repo.lngs[i]? = some (Math.round (y * 100000))) :
    (∃ u v, (getLocation (.coords x y) w).dom.latitude = some u
        ∧ (getLocation (.coords x y) w).dom.longitude = some v
        ∧ |u - x| ≤ 1 / 100000 ∧ |v - y| ≤ 1 / 100000)
      ∧ (∃ u v, (mkRow repo now i : Row α).cell4 = (some u, some v)
        ∧ |u - x| ≤ 1 / 100000 ∧ |v - y| ≤ 1 / 100000) := by
  have hx : |(Math.round (x * 100000) : α) / 100000 - x| ≤ 1 / 100000 :=
    le_trans (round_div_sub_le x) (by norm_num)
  have hy : |(Math.round (y * 100000) : α) / 100000 - y| ≤ 1 / 100000 :=
    le_trans (round_div_sub_le y) (by norm_num)
  refine ⟨⟨_, _, ?_, ?_, hx, hy⟩, ⟨_, _, ?_, hx, hy⟩⟩
  · simp [getLocation, World.log]
  · simp [getLocation, World.log]
  · simp [mkRow, hlat, hlng]

/-- C6, at the sample answer: its first entry holds the fixed-point coordinates
of the position `(37.123456, -122.000004)`. -/
theorem coordinate_round_trip_within_1e5_sample :
    sampleRepo.lats[0]? = some (Math.round ((37123456 / 1000000 : ℚ) * 100000))
      ∧ sampleRepo.lngs[0]? = some (Math.round ((-122000004 / 1000000 : ℚ) * 100000))
      ∧ (∃ u v, (getLocation (.coords (37123456 / 1000000) (-122000004 / 1000000))
            sampleWorld).dom.latitude = some u
          ∧ (getLocation (.coords (37123456 / 1000000) (-122000004 / 1000000))
            sampleWorld).dom.longitude = some v
          ∧ |u - 37123456 / 1000000| ≤ 1 / 100000
          ∧ |v - -122000004 / 1000000| ≤ 1 / 100000)
      ∧ (∃ u v, (mkRow sampleRepo "now" 0 : Row ℚ).cell4 = (some u, some v)
          ∧ |u - 37123456 / 1000000| ≤ 1 / 100000
          ∧ |v - -122000004 / 1000000| ≤ 1 / 100000) :=
  have hlat : sampleRepo.lats[0]? = some (Math.round ((37123456 / 1000000 : ℚ) * 100000)) := by
    have h : Math.round ((37123456 / 1000000 : ℚ) * 100000) = 3712346 := by
      unfold Math.round
      rw [Int.floor_eq_iff]
      constructor <;> norm_num
    rw [h]
    rfl
  have hlng : sampleRepo.lngs[0]?
      = some (Math.round ((-122000004 / 1000000 : ℚ) * 100000)) := by
    have h : Math.round ((-122000004 / 1000000 : ℚ) * 100000) = -12200000 := by
      unfold Math.round
      rw [Int.floor_eq_iff]
      constructor <;> norm_num
    rw [h]
    rfl
  ⟨hlat, hlng,
   coordinate_round_trip_within_1e5 (37123456 / 1000000) (-122000004 / 1000000)
     sampleWorld sampleRepo "now" 0 hlat hlng⟩

/-- C7: whenever the ledger rejects `fileReport`, the record shown after
`handleReport` is the record shown before it and the score indicator is
hidden, for every page and every answer of the wallet. -/
theorem handleReport_rejected_keeps_record {α : Type} [LinearOrderedField α]
    (r : ReportReplies) (w : World α) (message : String)
    (hrej : r.fileReport = .rejected message) :
    (handleReport r w).dom.record = w.dom.record
      ∧ (handleReport r w).dom.score = .hidden := by
  obtain ⟨error, accounts, artifact, deployed, filed⟩ := r
  simp only at hrej
  subst hrej
  cases error <;> cases accounts <;> cases artifact <;> cases deployed <;>
    simp [handleReport, World.call, World.log]

/-- C7, at the sample page: the wallet answers, `fileReport` is called and
rejected; the earlier record stays and the score, visible before, is hidden. -/
theorem handleReport_rejected_keeps_record_sample :
    ledgerRejects.fileReport = .rejected "VM Exception while processing transaction: revert"
      ∧ (handleReport ledgerRejects sampleWorld).dom.record = sampleWorld.dom.record
      ∧ (handleReport ledgerRejects sampleWorld).dom.score = .hidden :=
  ⟨rfl, handleReport_rejected_keeps_record ledgerRejects sampleWorld
    "VM Exception while processing transaction: revert" rfl⟩

/-- C8, the code at `errorWithAccounts`: the wallet reports an error together
with an account list; `handleReport` logs the error and then goes on to resolve
the contract instance, to call `fileReport` and to write the record. -/
theorem handleReport_error_still_contacts_ledger :
    (handleReport errorWithAccounts sampleWorld).console
        = [.message "User denied account authorization", .determinedCoords 0 0]
      ∧ (handleReport errorWithAccounts sampleWorld).calls
        = [.getAccounts, .deployed, .fileReport "CA7ABC123" "7ABC123" "CA" 2 0 0]
      ∧ (handleReport errorWithAccounts sampleWorld).dom.record
        = "Tag <b>CA--7ABC123</b> was filed by user 0xA11CE<br><b>TransactionID=</b>0xabc" := by
  refine ⟨?_, ?_, ?_⟩
  · simp [handleReport, errorWithAccounts, sampleWorld, toNumber, World.call, World.log]
  · simp [handleReport, errorWithAccounts, sampleWorld, toNumber, World.call, World.log]
  · simp [handleReport, errorWithAccounts, sampleWorld, toNumber, World.call, World.log]

/-- When the `getAccounts` callback receives no account list, reading
`accounts[0]` throws: the ledger is not contacted and the record stays. -/
theorem handleReport_without_accounts {α : Type} [LinearOrderedField α]
    (error : Option String) (artifact : Bool) (deployed : Settled Unit)
    (filed : Settled String) (w : World α) :
    (handleReport ⟨error, none, artifact, deployed, filed⟩ w).calls = w.calls ++ [.getAccounts]
      ∧ (handleReport ⟨error, none, artifact, deployed, filed⟩ w).dom.record = w.dom.record := by
  cases error <;> simp [handleReport, World.call, World.log]

/-- C9: when the latitude and longitude elements are empty, `handleReport` still
calls `fileReport`, with latitude 0 and longitude 0, and these are the
arguments it passes after `getLocation` has captured the position `(0, 0)`. -/
theorem handleReport_without_fix_sends_zero {α : Type} [LinearOrderedField α] [FloorRing α]
    (w : World α) (error : Option String) (accounts : List String) (filed : Settled String)
    (hlat : w.dom.latitude = none) (hlng : w.dom.longitude = none) :
    (handleReport ⟨error, some accounts, true, .fulfilled (), filed⟩ w).calls
        = w.calls ++ [.getAccounts, .deployed,
            .fileReport (w.dom.tagstate ++ w.dom.plateno) w.dom.plateno w.dom.tagstate
              w.dom.behavior 0 0]
      ∧ (handleReport ⟨error, some accounts, true, .fulfilled (), filed⟩
          (getLocation (.coords 0 0) w)).calls
        = (handleReport ⟨error, some accounts, true, .fulfilled (), filed⟩ w).calls := by
  have hround : (Math.round (0 : α) : Int) = 0 := by
    unfold Math.round
    rw [Int.floor_eq_iff]
    constructor <;> norm_num
  constructor
  · cases error <;> cases filed <;>
      simp [handleReport, toNumber, World.call, World.log, hlat, hlng]
  · cases error <;> cases filed <;>
      simp [handleReport, getLocation, toNumber, World.call, World.log, hlat, hlng, hround]

/-- C9, at the sample page, whose latitude and longitude elements are empty. -/
theorem handleReport_without_fix_sends_zero_sample :
    sampleWorld.dom.latitude = none ∧ sampleWorld.dom.longitude = none
      ∧ (handleReport ⟨none, some ["0xA11CE"], true, .fulfilled (), .fulfilled "0xabc"⟩
          sampleWorld).calls
        = sampleWorld.calls ++ [.getAccounts, .deployed,
            .fileReport (sampleWorld.dom.tagstate ++ sampleWorld.dom.plateno)
              sampleWorld.dom.plateno sampleWorld.dom.tagstate sampleWorld.dom.behavior 0 0]
      ∧ (handleReport ⟨none, some ["0xA11CE"], true, .fulfilled (), .fulfilled "0xabc"⟩
          (getLocation (.coords 0 0) sampleWorld)).calls
        = (handleReport ⟨none, some ["0xA11CE"], true, .fulfilled (), .fulfilled "0xabc"⟩
          sampleWorld).calls :=
  ⟨rfl, rfl,
   handleReport_without_fix_sends_zero sampleWorld none ["0xA11CE"] (.fulfilled "0xabc") rfl rfl⟩

/-- C10, as the code has it: the first cell of every row that `handleGetReports`
appends shows the valid flag `repo[1][i]` of its index `i`, a number greater
than zero, and not the index. -/
theorem handleGetReports_first_cell_is_flag {α : Type} [LinearOrderedField α]
    (repo : Reports) (now : String) (w : World α) :
    ((handleGetReports ⟨true, .fulfilled (), .fulfilled repo, now⟩ w).dom.reports).map Row.cell1
        = ((List.range repo.count).filter
            (fun i => decide (0 < (repo.validFlags[i]?).getD 0))).map
          (fun i => repo.validFlags[i]?)
      ∧ ∀ i, (mkRow repo now i : Row α).cell1 = repo.validFlags[i]? := by
  constructor
  · rw [(handleGetReports_reports_positive repo now w), List.map_map]
    rfl
  · intro i
    rfl

/-- C10, counterexample: for the sample answer the rows belong to the indices
0, 2 and 3, and their first cells read 1, 1 and 1. -/
theorem handleGetReports_first_cell_not_index :
    ((handleGetReports (historyOf sampleRepo) sampleWorld).dom.reports).map Row.cell1
        = [some 1, some 1, some 1]
      ∧ ((handleGetReports (historyOf sampleRepo) sampleWorld).dom.reports).map Row.cell1
        ≠ [some 0, some 2, some 3] := by
  have h : ((handleGetReports (historyOf sampleRepo) sampleWorld).dom.reports).map Row.cell1
      = [some 1, some 1, some 1] := by
    unfold historyOf
    rw [handleGetReports_reports]
    simp [sampleRepo, List.range_succ, List.filter, flagSet, mkRow]
  refine ⟨h, ?_⟩
  rw [h]
  decide

end App
